import Mathlib

/-!
Verification of the DAIM-MVP dance-generation pipeline core:
feature synchronization (audio_processor.py), baseline motion synthesis
(generator.py) and BVH export (bvh_export.py), shallowly embedded in Lean.
Floating-point values are modelled as exact rationals (for the data-driven
exporter and synchronizer) or as elements of a linear ordered field with an
abstract sine function (for the trigonometric motion generator, instantiated
at the reals).
-/

namespace DAIM

set_option maxRecDepth 100000

/-- SMPL joint names, from BVHExporter.JOINT_NAMES (bvh_export.py). -/
def JOINT_NAMES : List String :=
  ["Pelvis", "L_Hip", "R_Hip", "Spine1", "L_Knee", "R_Knee", "Spine2",
   "L_Ankle", "R_Ankle", "Spine3", "L_Foot", "R_Foot", "Neck", "L_Collar",
   "R_Collar", "Head", "L_Shoulder", "R_Shoulder", "L_Elbow", "R_Elbow",
   "L_Wrist", "R_Wrist", "L_Hand", "R_Hand"]

/-- Parent index of each joint, from BVHExporter.PARENT_INDICES
(bvh_export.py); -1 marks the root. -/
def PARENT_INDICES : List ℤ :=
  [-1, 0, 0, 0, 1, 2, 3, 4, 5, 6, 7, 8, 9, 9, 9, 12, 13, 14, 16, 17, 18, 19, 20, 21]

/-- Children of a joint, from the list comprehension in
BVHExporter. write_joint: all indices whose parent entry equals the joint. -/
def children (j : ℕ) : List ℕ :=
  (List.range PARENT_INDICES.length).filter (fun i => PARENT_INDICES.getD i 0 = (j : ℤ))

/-- Bone offset table, from BVHExporter. get_joint_offset (bvh_export.py);
unknown indices default to the origin, mirroring offsets.get(idx, [0,0,0]). -/
def get_joint_offset (j : ℕ) : ℚ × ℚ × ℚ :=
  match j with
  | 0 => (0, 0, 0)
  | 1 => (1/10, -1/20, 0)
  | 2 => (-1/10, -1/20, 0)
  | 3 => (0, 1/10, 0)
  | 4 => (0, -4/10, 0)
  | 5 => (0, -4/10, 0)
  | 6 => (0, 15/100, 0)
  | 7 => (0, -4/10, 0)
  | 8 => (0, -4/10, 0)
  | 9 => (0, 15/100, 0)
  | 10 => (0, -1/10, 1/10)
  | 11 => (0, -1/10, 1/10)
  | 12 => (0, 15/100, 0)
  | 13 => (15/100, 1/20, 0)
  | 14 => (-15/100, 1/20, 0)
  | 15 => (0, 15/100, 0)
  | 16 => (2/10, 0, 0)
  | 17 => (-2/10, 0, 0)
  | 18 => (25/100, 0, 0)
  | 19 => (-25/100, 0, 0)
  | 20 => (25/100, 0, 0)
  | 21 => (-25/100, 0, 0)
  | 22 => (1/10, 0, 0)
  | 23 => (-1/10, 0, 0)
  | _ => (0, 0, 0)

/-- One line of the HIERARCHY block, as a structured token: each
constructor corresponds to exactly one file.write call inside
BVHExporter. write_joint, carrying the indent level and the data the
line is rendered from. -/
inductive Line where
  | rootHeader (d : ℕ) (j : ℕ)
  | jointHeader (d : ℕ) (j : ℕ)
  | openBrace (d : ℕ)
  | offsetLine (d : ℕ) (j : ℕ)
  | channels6 (d : ℕ)
  | channels3 (d : ℕ)
  | endSite (d : ℕ)
  | endOpen (d : ℕ)
  | endOffset (d : ℕ)
  | endClose (d : ℕ)
  | closeBrace (d : ℕ)
  deriving DecidableEq, Repr

/-- Fixed-point rendering with six decimal digits, modelling the
Python format spec .6f on exact rationals. -/
def format6 (q : ℚ) : String :=
  let m : ℤ := round (q * 1000000)
  let sign := if m < 0 then "-" else ""
  let a := m.natAbs
  let ip := a / 1000000
  let fp := a % 1000000
  let fs := toString fp
  let padz := String.mk (List.replicate (6 - fs.length) '0')
  sign ++ toString ip ++ "." ++ padz ++ fs

/-- Indentation string: "  " repeated per level, as in write_joint. -/
def pad (n : ℕ) : String := String.mk (List.replicate n ' ')

/-- Rendering of a hierarchy line token to the exact text written by
BVHExporter. write_joint. -/
def render (l : Line) : String :=
  match l with
  | .rootHeader d j => pad (2*d) ++ "ROOT " ++ JOINT_NAMES.getD j ""
  | .jointHeader d j => pad (2*d) ++ "JOINT " ++ JOINT_NAMES.getD j ""
  | .openBrace d => pad (2*d) ++ "\x7b"
  | .offsetLine d j =>
      let off := get_joint_offset j
      pad (2*d) ++ "  OFFSET " ++ format6 off.1 ++ " " ++ format6 off.2.1
        ++ " " ++ format6 off.2.2
  | .channels6 d =>
      pad (2*d) ++ "  CHANNELS 6 Xposition Yposition Zposition Zrotation Xrotation Yrotation"
  | .channels3 d => pad (2*d) ++ "  CHANNELS 3 Zrotation Xrotation Yrotation"
  | .endSite d => pad (2*d) ++ "  End Site"
  | .endOpen d => pad (2*d) ++ "  \x7b"
  | .endOffset d => pad (2*d) ++ "    OFFSET 0.0 0.0 0.0"
  | .endClose d => pad (2*d) ++ "  \x7d"
  | .closeBrace d => pad (2*d) ++ "\x7d"

/-- Recursive hierarchy writer, from BVHExporter. write_joint
(bvh_export.py): header, opening brace, OFFSET line, CHANNELS line
(6 channels for the root, 3 otherwise), then the children blocks in the
order produced by the filter over PARENT_INDICES, or an End Site block
when there are no children, then the closing brace. The fuel argument
bounds the recursion depth; 24 exceeds the depth of the fixed skeleton,
so the bottom case is never reached from the root call. -/
def write_joint : ℕ → ℕ → ℕ → List Line
  | 0, _, _ => []
  | fuel+1, j, d =>
    let header := if j = 0 then Line.rootHeader d j else Line.jointHeader d j
    let chan := if j = 0 then Line.channels6 d else Line.channels3 d
    let kids := children j
    let body :=
      if kids.isEmpty then
        [Line.endSite d, Line.endOpen d, Line.endOffset d, Line.endClose d]
      else
        kids.flatMap (fun c => write_joint fuel c (d+1))
    [header, Line.openBrace d, Line.offsetLine d j, chan]
      ++ body ++ [Line.closeBrace d]

/-- Lines of the hierarchy body: write_joint applied to the root, as in
BVHExporter. write_hierarchy. -/
def hierarchy_lines : List Line := write_joint 24 0 0

/-- Joint index of a header line, if the line is one. -/
def headerJointIdx (l : Line) : Option ℕ :=
  match l with
  | .rootHeader _ j => some j
  | .jointHeader _ j => some j
  | _ => none

/-- Order in which the hierarchy block declares joints (hence channels). -/
def hierarchy_joint_order : List ℕ := hierarchy_lines.filterMap headerJointIdx

/-- Depth-first enumeration of the skeleton from a start joint: the joint
itself, then the subtrees of its children in list order. -/
def dfs : ℕ → ℕ → List ℕ
  | 0, _ => []
  | fuel+1, j => j :: (children j).flatMap (dfs fuel)

/-- Test for a ROOT header line. -/
def is_root_header (l : Line) : Bool :=
  match l with | .rootHeader _ _ => true | _ => false

/-- Test for a JOINT header line. -/
def is_joint_header (l : Line) : Bool :=
  match l with | .jointHeader _ _ => true | _ => false

/-- Checks that every ROOT header is for joint 0 and is followed three
lines later (after the brace and OFFSET lines) by the 6-channel
declaration, and that every JOINT header is followed three lines later by
the 3-channel declaration, at the header's own indent. -/
def channels_follow_headers (lines : List Line) : Bool :=
  (List.range lines.length).all (fun k =>
    match lines.getD k (.openBrace 0) with
    | .rootHeader d j =>
        decide (j = 0) && decide (lines.getD (k+3) (.openBrace 0) = .channels6 d)
    | .jointHeader d _ =>
        decide (lines.getD (k+3) (.openBrace 0) = .channels3 d)
    | _ => true)

/-- Channel count contributed by one hierarchy line. -/
def line_channel_count (l : Line) : ℕ :=
  match l with
  | .channels6 _ => 6
  | .channels3 _ => 3
  | _ => 0

/-- Total number of channels declared by the hierarchy block. -/
def skeleton_channel_count : ℕ := (hierarchy_lines.map line_channel_count).sum

/-- Values of one MOTION line, from BVHExporter. write_motion: the three
root-translation values of the frame, then for each joint index in
range(motion_data.shape[1]) the three rotation values of that joint. -/
def frame_line_values (rot : ℕ → ℕ → ℕ → ℚ) (trans : ℕ → ℕ → ℚ)
    (num_joints i : ℕ) : List ℚ :=
  [trans i 0, trans i 1, trans i 2]
    ++ (List.range num_joints).flatMap (fun j => [rot i j 0, rot i j 1, rot i j 2])

/-- One rendered MOTION line: the frame values formatted with six decimals
and joined by single spaces. -/
def frame_line (rot : ℕ → ℕ → ℕ → ℚ) (trans : ℕ → ℕ → ℚ)
    (num_joints i : ℕ) : String :=
  " ".intercalate ((frame_line_values rot trans num_joints i).map format6)

/-- MOTION section lines, from BVHExporter. write_motion: the MOTION tag,
the frame count, the frame time (1/fps with six decimals), then one line
per frame. -/
def write_motion (fps num_frames num_joints : ℕ)
    (rot : ℕ → ℕ → ℕ → ℚ) (trans : ℕ → ℕ → ℚ) : List String :=
  ["MOTION", "Frames: " ++ toString num_frames,
   "Frame Time: " ++ format6 (1 / (fps : ℚ))]
    ++ (List.range num_frames).map (frame_line rot trans num_joints)

/-- Depth of a joint in the skeleton tree (number of parent links up to the
root), used to name the sub-block a joint occupies in the recursive writer.
The fuel bounds the parent-chain walk; 24 always suffices. -/
def joint_depth : ℕ → ℕ → ℕ
  | 0, _ => 0
  | f+1, j => if j = 0 then 0 else joint_depth f (PARENT_INDICES.getD j 0).toNat + 1

/-- The block of hierarchy lines the recursive writer emits for one joint,
at that joint's depth in the tree. -/
def joint_block (j : ℕ) : List Line := write_joint 24 j (joint_depth 24 j)

/-- Result of an export: the warnings printed and the file lines written. -/
structure ExportResult where
  warnings : List String
  lines : List String
  deriving Repr

/-- The exporter, from BVHExporter.export (bvh_export.py): warn when the
motion data's joint count is not the skeleton's 24, default missing
translations to all zeros, then write the HIERARCHY section followed by
the MOTION section. The function is total: the joint-count mismatch only
warns and never aborts. -/
def export_bvh (fps num_frames num_joints : ℕ) (rot : ℕ → ℕ → ℕ → ℚ)
    (translations : Option (ℕ → ℕ → ℚ)) : ExportResult :=
  let warns :=
    if num_joints ≠ 24 then
      ["Warning: Expected 24 joints, got " ++ toString num_joints ++ ". Adjusting..."]
    else []
  let trans := translations.getD (fun _ _ => 0)
  { warnings := warns,
    lines := ["HIERARCHY"] ++ hierarchy_lines.map render
      ++ write_motion fps num_frames num_joints rot trans }

/-!
Feature synchronizer, from AudioProcessor (audio_processor.py). Feature
matrices are lists of rows (shape (channels, N)); floating-point values are
modelled as exact rationals. scipy.interpolate.interp1d raises a ValueError
when built from fewer than two sample points; this library failure is
modelled as the Except error below, propagated unchanged out of
sync_to_fps exactly as the uncaught exception is.
-/

/-- Error message scipy's interp1d raises when given fewer than two
sample points. -/
def interp1d_min_points_msg : String := "x and y arrays must have at least 2 entries"

/-- Column count of a feature matrix: the length of its first row,
modelling numpy shape[1]. -/
def num_cols (m : List (List ℚ)) : ℕ := (m.headD []).length

/-- Value of the linear interpolant of a row at the j-th of
target_length equally spaced points on [0,1], from the interp1d call in
AudioProcessor. resample_feature: the native samples sit at N equally
spaced points of [0,1], the query point falls in segment s, and the value
interpolates linearly between samples s and s+1. -/
def interp_at (row : List ℚ) (current_length target_length j : ℕ) : ℚ :=
  let p : ℚ := if target_length ≤ 1 then 0 else (j : ℚ) / ((target_length : ℚ) - 1)
  let s : ℕ := min (Int.toNat ⌊p * ((current_length : ℚ) - 1)⌋) (current_length - 2)
  row.getD s 0
    + (row.getD (s+1) 0 - row.getD s 0) * (p * ((current_length : ℚ) - 1) - (s : ℚ))

/-- Per-matrix resampling, from AudioProcessor. resample_feature: fails
when the native column count is below two (interp1d cannot be built),
otherwise maps every row to target_length interpolated values. -/
def resample_feature (feature : List (List ℚ)) (target_length : ℕ) :
    Except String (List (List ℚ)) :=
  let current_length := num_cols feature
  if current_length < 2 then
    Except.error interp1d_min_points_msg
  else
    Except.ok (feature.map (fun row =>
      (List.range target_length).map (interp_at row current_length target_length)))

/-- Synchronized feature streams, the value sync_to_fps returns. -/
structure SyncedFeatures where
  mel : List (List ℚ)
  chroma : List (List ℚ)
  onset : List ℚ
  deriving Repr

/-- Feature synchronization, from AudioProcessor.sync_to_fps
(audio_processor.py): the native frame rate is audio_sr / hop_length, the
duration is the mel column count over that rate, the target frame count is
int(duration * target_fps) — truncation toward zero, here the floor of a
non-negative rational — and each stream is resampled to that count; the
onset vector is resampled as a one-row matrix and the row extracted. -/
def sync_to_fps (mel chroma : List (List ℚ)) (onset : List ℚ)
    (audio_sr hop_length target_fps : ℕ) : Except String SyncedFeatures :=
  let feature_fps : ℚ := (audio_sr : ℚ) / (hop_length : ℚ)
  let num_feature_frames := num_cols mel
  let duration : ℚ := (num_feature_frames : ℚ) / feature_fps
  let num_motion_frames : ℕ := Int.toNat ⌊duration * (target_fps : ℚ)⌋
  match resample_feature mel num_motion_frames with
  | Except.error e => Except.error e
  | Except.ok mel_resampled =>
    match resample_feature chroma num_motion_frames with
    | Except.error e => Except.error e
    | Except.ok chroma_resampled =>
      match resample_feature [onset] num_motion_frames with
      | Except.error e => Except.error e
      | Except.ok onset_resampled =>
        Except.ok { mel := mel_resampled, chroma := chroma_resampled,
                    onset := onset_resampled.headD [] }

/-- Target frame count computed by sync_to_fps for a mel matrix with N
native columns: int((N / (sr/hop)) * fps). -/
def sync_frame_count (n audio_sr hop_length target_fps : ℕ) : ℕ :=
  Int.toNat ⌊(n : ℚ) / ((audio_sr : ℚ) / (hop_length : ℚ)) * (target_fps : ℚ)⌋

/-- The successful value of an Except, with empty streams as fallback. -/
def sync_ok (e : Except String SyncedFeatures) : SyncedFeatures :=
  e.toOption.getD { mel := [], chroma := [], onset := [] }

/-!
Baseline procedural motion generator, from BaselineGenerator.generate
(generator.py). The definitions are polymorphic over a linear ordered
field together with an abstract sine function and circle constant, and the
theorems instantiate them at the reals with Real.sin and Real.pi; that
keeps the definitions themselves evaluable (for example over the
rationals with a stub sine) while the proofs use the exact trigonometry
of the source formulas.
-/

variable {α : Type} [LinearOrderedField α]

/-- Beat intensity of a frame, from generator.py line 112: the onset value
at the frame index when the index is within the onset vector, else 0. -/
def beat_intensity (onset : List α) (i : ℕ) : α := onset.getD i 0

/-- Rotation value written for frame i, joint j, axis a before the beat
emphasis, from the per-frame assignments of BaselineGenerator.generate
(generator.py lines 114-132); entries never assigned keep the initial 0 of
np.zeros. t is the frame time i/60 and the phases follow the source
formulas verbatim. -/
def base_rotation (sin : α → α) (pi : α) (tempo : α) (i j a : ℕ) : α :=
  let t : α := (i : α) / 60
  let arm_phase := 2 * pi * t * tempo / 60
  let hip_phase := 2 * pi * t * tempo / 120
  match j, a with
  | 3, 1 => 5 * sin (2 * pi * t * tempo / 60)
  | 6, 1 => 3 * sin (2 * pi * t * tempo / 60 + 1/2)
  | 16, 0 => 30 + 30 * sin arm_phase
  | 17, 0 => 30 + 30 * sin (arm_phase + pi)
  | 16, 2 => 20 * sin (arm_phase * 2)
  | 17, 2 => -20 * sin (arm_phase * 2)
  | 18, 0 => 10 + 20 * |sin arm_phase|
  | 19, 0 => 10 + 20 * |sin (arm_phase + pi)|
  | 1, 2 => 10 * sin hip_phase
  | 2, 2 => -10 * sin hip_phase
  | _, _ => 0

/-- Final rotation value for frame i, joint j, axis a, from generator.py
lines 134-137: when the frame's beat intensity exceeds 0.5 every rotation
entry of the frame is multiplied by (1 + 0.2 * beat_intensity). -/
def rotation (sin : α → α) (pi : α) (tempo : α) (onset : List α) (i j a : ℕ) : α :=
  let bi := beat_intensity onset i
  if bi > 1/2 then base_rotation sin pi tempo i j a * (1 + 2/10 * bi)
  else base_rotation sin pi tempo i j a

/-- Root translation for frame i and coordinate c, from generator.py lines
107-109: lateral sway on X, bobbing on Y, constant 0 on Z. -/
def translation (sin : α → α) (pi : α) (tempo : α) (i c : ℕ) : α :=
  let t : α := (i : α) / 60
  match c with
  | 0 => 1/10 * sin (2 * pi * t * tempo / 60)
  | 1 => 1 + 5/100 * |sin (4 * pi * t * tempo / 60)|
  | 2 => 0
  | _ => 0

/-- Output of the baseline generator, from the dict returned by
BaselineGenerator.generate: rotations, root translations, frame count and
the fixed 60 fps. -/
structure MotionData (α : Type) where
  rotations : ℕ → ℕ → ℕ → α
  translations : ℕ → ℕ → α
  num_frames : ℕ
  fps : ℕ

/-- The baseline generator, from BaselineGenerator.generate
(generator.py): the frame count is the mel matrix's column count, the
rotations and translations are the per-frame values above, and fps is the
hard-coded 60. -/
def generate (sin : α → α) (pi : α) (num_mel_frames : ℕ) (tempo : α)
    (onset : List α) : MotionData α :=
  { rotations := rotation sin pi tempo onset,
    translations := translation sin pi tempo,
    num_frames := num_mel_frames,
    fps := 60 }

/-!
Theorems. The helper lemma sync_eq_ok evaluates the synchronizer on any
well-sampled input; the named claim theorems follow.
-/

/-- Helper: on inputs whose streams all have at least two native columns,
sync_to_fps succeeds and returns exactly the per-row interpolations at the
computed target frame count. -/
lemma sync_eq_ok (mel chroma : List (List ℚ)) (onset : List ℚ)
    (sr hop fps : ℕ)
    (hm : 2 ≤ num_cols mel) (hc : 2 ≤ num_cols chroma) (ho : 2 ≤ onset.length) :
    sync_to_fps mel chroma onset sr hop fps = Except.ok
      { mel := mel.map (fun row =>
          (List.range (sync_frame_count (num_cols mel) sr hop fps)).map
            (interp_at row (num_cols mel) (sync_frame_count (num_cols mel) sr hop fps))),
        chroma := chroma.map (fun row =>
          (List.range (sync_frame_count (num_cols mel) sr hop fps)).map
            (interp_at row (num_cols chroma) (sync_frame_count (num_cols mel) sr hop fps))),
        onset := (List.range (sync_frame_count (num_cols mel) sr hop fps)).map
          (interp_at onset onset.length (sync_frame_count (num_cols mel) sr hop fps)) } := by
  have hm2 : ¬ num_cols mel < 2 := by omega
  have hc2 : ¬ num_cols chroma < 2 := by omega
  have ho2 : ¬ num_cols [onset] < 2 := by simpa [num_cols] using ho
  simp only [sync_to_fps, resample_feature, hm2, hc2, ho2, if_false, sync_frame_count]
  simp [num_cols]

/-- C1: the hierarchy block declares joints (and hence channels) in
depth-first order, whose third entry is joint 4 (L_Knee), while the motion
line writer emits the third rotation triple from joint index 2 (R_Hip):
the motion block's joint order is the flat index order, which differs from
the hierarchy's depth-first channel order, contradicting the claimed
layout. The middle conjunct evaluates a motion line on rotation data whose
every value is its own joint index. -/
theorem motion_block_vs_hierarchy_order_bug :
    hierarchy_joint_order = dfs 24 0 ∧
    hierarchy_joint_order.getD 2 24 = 4 ∧
    (frame_line_values (fun _ j _ => (j:ℚ)) (fun _ _ => 0) 24 0).getD (3 + 3*2) 99 = 2 ∧
    hierarchy_joint_order ≠ List.range 24 := by
  refine ⟨by decide, by decide, ?_, by decide⟩
  norm_num [frame_line_values]
  decide

/-- C2 counterexample: on a 3-column input at native rate 48000/512 and
target fps 60, the synchronizer produces 1 column while the claimed
round formula gives round(1.92) = 2. -/
theorem sync_round_law_counterexample :
    num_cols (sync_ok (sync_to_fps [[0,0,0]] [[0,0,0]] [0,0,0] 48000 512 60)).mel = 1 ∧
    Int.toNat (round ((num_cols [[(0:ℚ),0,0]] : ℚ) / ((48000:ℚ)/512) * 60)) = 2 ∧
    (1:ℕ) ≠ 2 := by
  refine ⟨?_, ?_, by decide⟩
  · rw [sync_eq_ok [[0,0,0]] [[0,0,0]] [0,0,0] 48000 512 60 (by decide) (by decide) (by decide)]
    have hT : sync_frame_count 3 48000 512 60 = 1 := by
      unfold sync_frame_count
      norm_num
    simp [sync_ok, Except.toOption, num_cols, hT]
  · have h3 : (num_cols [[(0:ℚ),0,0]] : ℚ) = 3 := by norm_num [num_cols]
    rw [h3, round_eq]
    norm_num
    rfl

/-- C2 amended: for native column counts of at least two in every stream,
synchronization succeeds and every output stream — mel rows, chroma rows
and the onset vector — has exactly T = int((N/nativeFps)·F) columns, the
floor (truncation) of the exact product, not its rounding. -/
theorem sync_floor_law (mel chroma : List (List ℚ)) (onset : List ℚ)
    (sr hop fps : ℕ)
    (hm : 2 ≤ num_cols mel) (hc : 2 ≤ num_cols chroma) (ho : 2 ≤ onset.length) :
    (sync_to_fps mel chroma onset sr hop fps).isOk = true ∧
    (∀ row ∈ (sync_ok (sync_to_fps mel chroma onset sr hop fps)).mel,
        row.length = sync_frame_count (num_cols mel) sr hop fps) ∧
    (∀ row ∈ (sync_ok (sync_to_fps mel chroma onset sr hop fps)).chroma,
        row.length = sync_frame_count (num_cols mel) sr hop fps) ∧
    (sync_ok (sync_to_fps mel chroma onset sr hop fps)).onset.length
        = sync_frame_count (num_cols mel) sr hop fps := by
  rw [sync_eq_ok mel chroma onset sr hop fps hm hc ho]
  refine ⟨rfl, ?_, ?_, ?_⟩
  · intro row hrow
    simp only [sync_ok, Except.toOption, Option.getD] at hrow ⊢
    obtain ⟨r, _, rfl⟩ := List.mem_map.mp hrow
    simp
  · intro row hrow
    simp only [sync_ok, Except.toOption, Option.getD] at hrow ⊢
    obtain ⟨r, _, rfl⟩ := List.mem_map.mp hrow
    simp
  · simp [sync_ok, Except.toOption]

/-- Witness for C2 amended, at a concrete 2-column input. -/
theorem sync_floor_law_witness :
    (sync_to_fps [[0,0]] [[0,0]] [0,0] 48000 512 60).isOk = true ∧
    (∀ row ∈ (sync_ok (sync_to_fps [[0,0]] [[0,0]] [0,0] 48000 512 60)).mel,
        row.length = sync_frame_count (num_cols [[0,0]]) 48000 512 60) ∧
    (∀ row ∈ (sync_ok (sync_to_fps [[0,0]] [[0,0]] [0,0] 48000 512 60)).chroma,
        row.length = sync_frame_count (num_cols [[0,0]]) 48000 512 60) ∧
    (sync_ok (sync_to_fps [[0,0]] [[0,0]] [0,0] 48000 512 60)).onset.length
        = sync_frame_count (num_cols [[0,0]]) 48000 512 60 :=
  sync_floor_law [[0,0]] [[0,0]] [0,0] 48000 512 60 (by decide) (by decide) (by decide)

/-- C3: a feature matrix with fewer than two native columns cannot be
interpolated: resample_feature fails with the interp1d error, and the
failure propagates unchanged out of sync_to_fps to the caller whenever the
mel stream is undersampled. -/
theorem undersampled_input_fails (feature : List (List ℚ)) (tl : ℕ)
    (mel chroma : List (List ℚ)) (onset : List ℚ) (sr hop fps : ℕ)
    (hf : num_cols feature < 2) (hm : num_cols mel < 2) :
    resample_feature feature tl = Except.error interp1d_min_points_msg ∧
    sync_to_fps mel chroma onset sr hop fps
      = Except.error interp1d_min_points_msg := by
  constructor
  · simp [resample_feature, hf]
  · simp [sync_to_fps, resample_feature, hm]

/-- Witness for C3 at a one-column input. -/
theorem undersampled_input_fails_witness :
    resample_feature [[5]] 7 = Except.error interp1d_min_points_msg ∧
    sync_to_fps [[5]] [[1,2]] [0,0] 48000 512 60
      = Except.error interp1d_min_points_msg :=
  undersampled_input_fails [[5]] 7 [[5]] [[1,2]] [0,0] 48000 512 60 (by decide) (by decide)

/-- C4 counterexample: exporting 20-joint motion data warns and proceeds,
but the motion line carries 3 + 3·20 = 63 values, not the 75 channels the
24-joint skeleton hierarchy declares: the data is not adjusted or
truncated to the skeleton. -/
theorem joint_mismatch_no_adjust_counterexample :
    (export_bvh 60 1 20 (fun _ _ _ => 0) (some (fun _ _ => 0))).warnings ≠ [] ∧
    (frame_line_values (fun _ _ _ => 0) (fun _ _ => 0) 20 0).length = 63 ∧
    skeleton_channel_count = 75 ∧ (63:ℕ) ≠ 75 := by
  refine ⟨by simp [export_bvh], by decide, by decide, by decide⟩

/-- C4 amended: a joint count other than 24 makes the exporter emit the
mismatch warning and still write the complete file — the hierarchy, the
three motion header lines and one line per frame — with each motion line
holding 3 + 3·J values for a J-joint input, the data passed through
unadjusted. -/
theorem joint_mismatch_warn_and_proceed (fps nf nj : ℕ) (rot : ℕ → ℕ → ℕ → ℚ)
    (tr : Option (ℕ → ℕ → ℚ)) (h : nj ≠ 24) :
    (export_bvh fps nf nj rot tr).warnings
      = ["Warning: Expected 24 joints, got " ++ toString nj ++ ". Adjusting..."] ∧
    (export_bvh fps nf nj rot tr).lines.length
      = 1 + hierarchy_lines.length + 3 + nf ∧
    (∀ i, (frame_line_values rot (tr.getD (fun _ _ => 0)) nj i).length
      = 3 + 3 * nj) := by
  refine ⟨by simp [export_bvh, h], ?_, ?_⟩
  · simp only [export_bvh, write_motion, List.length_append, List.length_map,
      List.length_cons, List.length_range]
    simp
    omega
  · intro i
    simp only [frame_line_values, List.length_append, List.length_cons,
      List.length_flatMap, Function.comp_def, List.length_nil]
    simp [List.map_const', List.sum_replicate, smul_eq_mul]
    omega

/-- Witness for C4 amended, at a 20-joint single-frame input. -/
theorem joint_mismatch_warn_and_proceed_witness :
    (export_bvh 60 1 20 (fun _ _ _ => 0) (some (fun _ _ => 0))).warnings
      = ["Warning: Expected 24 joints, got " ++ toString 20 ++ ". Adjusting..."] ∧
    (export_bvh 60 1 20 (fun _ _ _ => 0) (some (fun _ _ => 0))).lines.length
      = 1 + hierarchy_lines.length + 3 + 1 ∧
    (∀ i, (frame_line_values (fun _ _ _ => 0)
        ((some (fun _ _ => 0) : Option (ℕ → ℕ → ℚ)).getD (fun _ _ => 0)) 20 i).length
      = 3 + 3 * 20) :=
  joint_mismatch_warn_and_proceed 60 1 20 (fun _ _ _ => 0) (some (fun _ _ => 0)) (by decide)

/-- C5: when a frame's beat intensity (its onset value, 0 beyond the
vector) exceeds 0.5, every rotation value of that frame — any joint, any
axis — equals the pre-emphasis value scaled by the single factor
(1 + 0.2·intensity); otherwise it equals the pre-emphasis value
unchanged; and the root translations do not depend on the onset vector at
all, so this rule never scales them. -/
theorem beat_emphasis_rule (n : ℕ) (tempo : ℝ) (onset : List ℝ) (i j a : ℕ) :
    (beat_intensity onset i > 1/2 →
      rotation Real.sin Real.pi tempo onset i j a
        = base_rotation Real.sin Real.pi tempo i j a * (1 + 2/10 * beat_intensity onset i)) ∧
    (¬ beat_intensity onset i > 1/2 →
      rotation Real.sin Real.pi tempo onset i j a
        = base_rotation Real.sin Real.pi tempo i j a) ∧
    (∀ onset₂ : List ℝ,
      (generate Real.sin Real.pi n tempo onset).translations
        = (generate Real.sin Real.pi n tempo onset₂).translations) := by
  refine ⟨fun h => ?_, fun h => ?_, fun onset₂ => rfl⟩
  · simp only [rotation]
    rw [if_pos h]
  · simp only [rotation]
    rw [if_neg h]

/-- Witness for C5 at intensity 0.8 on frame 0, joint 16, axis 0. -/
theorem beat_emphasis_rule_witness :
    beat_intensity ([4/5] : List ℝ) 0 > 1/2 ∧
    rotation Real.sin Real.pi 1 ([4/5] : List ℝ) 0 16 0
      = base_rotation Real.sin Real.pi 1 0 16 0
        * (1 + 2/10 * beat_intensity ([4/5] : List ℝ) 0) := by
  have hb : beat_intensity ([4/5] : List ℝ) 0 > 1/2 := by
    norm_num [beat_intensity, List.getD]
  exact ⟨hb, (beat_emphasis_rule 1 1 [4/5] 0 16 0).1 hb⟩

/-- C6: with tempo 120, all-zero onset and the generator's fixed 60 fps,
frame 15 has t = 0.25 s, the arm phase is 2π·0.25·2 = π, and the
L_Shoulder (joint 16) X rotation is 30 + 30·sin π = 30, within 1e-6. -/
theorem scenario_b_shoulder_rotation :
    |rotation Real.sin Real.pi (120:ℝ) (List.replicate 1800 (0:ℝ)) 15 16 0 - 30|
      ≤ 1/1000000 := by
  have hb : beat_intensity (List.replicate 1800 (0:ℝ)) 15 = 0 := by
    show (List.replicate 1800 (0:ℝ)).getD 15 0 = 0
    rw [List.getD_eq_getElem?_getD]
    exact List.getElem?_getD_replicate_default_eq _ _ _
  simp only [rotation, hb]
  rw [if_neg (by norm_num)]
  rw [show base_rotation Real.sin Real.pi (120:ℝ) 15 16 0
      = 30 + 30 * Real.sin (2 * Real.pi * (((15:ℕ):ℝ)/60) * 120 / 60) from rfl]
  rw [show 2 * Real.pi * (((15:ℕ):ℝ)/60) * 120 / 60 = Real.pi by push_cast; ring]
  simp [Real.sin_pi]

/-- C7 counterexample: on a zero-column (zero-duration) input the
synchronizer does not return empty streams — it fails with the interp1d
error, because zero native samples cannot be interpolated. -/
theorem zero_native_frames_counterexample :
    sync_to_fps [[]] [[]] [] 48000 512 60
      = Except.error interp1d_min_points_msg := by
  simp [sync_to_fps, resample_feature, num_cols]

/-- C7 amended: when every stream has at least two native columns and the
computed target frame count is zero, synchronization succeeds with empty
streams (zero columns everywhere); and the exporter's motion section for
zero frames is exactly the three header lines — a Frames: 0 line and no
frame lines — so a zero-length motion exports without error. -/
theorem zero_target_frames_ok (mel chroma : List (List ℚ)) (onset : List ℚ)
    (sr hop fps : ℕ)
    (hm : 2 ≤ num_cols mel) (hc : 2 ≤ num_cols chroma) (ho : 2 ≤ onset.length)
    (hT : sync_frame_count (num_cols mel) sr hop fps = 0) :
    (sync_to_fps mel chroma onset sr hop fps).isOk = true ∧
    (∀ row ∈ (sync_ok (sync_to_fps mel chroma onset sr hop fps)).mel, row.length = 0) ∧
    (∀ row ∈ (sync_ok (sync_to_fps mel chroma onset sr hop fps)).chroma, row.length = 0) ∧
    (sync_ok (sync_to_fps mel chroma onset sr hop fps)).onset.length = 0 ∧
    (∀ (fps₂ nj : ℕ) (rot : ℕ → ℕ → ℕ → ℚ) (tr : ℕ → ℕ → ℚ),
        write_motion fps₂ 0 nj rot tr
          = ["MOTION", "Frames: 0", "Frame Time: " ++ format6 (1/(fps₂:ℚ))]) := by
  rw [sync_eq_ok mel chroma onset sr hop fps hm hc ho]
  refine ⟨rfl, ?_, ?_, ?_, ?_⟩
  · intro row hrow
    simp only [sync_ok, Except.toOption, Option.getD] at hrow
    obtain ⟨r, _, rfl⟩ := List.mem_map.mp hrow
    simp [hT]
  · intro row hrow
    simp only [sync_ok, Except.toOption, Option.getD] at hrow
    obtain ⟨r, _, rfl⟩ := List.mem_map.mp hrow
    simp [hT]
  · simp [sync_ok, Except.toOption, hT]
  · intro fps₂ nj rot tr
    simp only [write_motion, List.range_zero, List.map_nil, List.append_nil]
    rfl

/-- Witness for C7 amended: two native columns at 48000/512 with target
fps 20 give a zero target frame count. -/
theorem zero_target_frames_ok_witness :
    (sync_to_fps [[0,0]] [[0,0]] [0,0] 48000 512 20).isOk = true ∧
    (∀ row ∈ (sync_ok (sync_to_fps [[0,0]] [[0,0]] [0,0] 48000 512 20)).mel,
        row.length = 0) ∧
    (∀ row ∈ (sync_ok (sync_to_fps [[0,0]] [[0,0]] [0,0] 48000 512 20)).chroma,
        row.length = 0) ∧
    (sync_ok (sync_to_fps [[0,0]] [[0,0]] [0,0] 48000 512 20)).onset.length = 0 ∧
    (∀ (fps₂ nj : ℕ) (rot : ℕ → ℕ → ℕ → ℚ) (tr : ℕ → ℕ → ℚ),
        write_motion fps₂ 0 nj rot tr
          = ["MOTION", "Frames: 0", "Frame Time: " ++ format6 (1/(fps₂:ℚ))]) :=
  zero_target_frames_ok [[0,0]] [[0,0]] [0,0] 48000 512 20 (by decide) (by decide)
    (by decide) (by unfold sync_frame_count num_cols; norm_num)

/-- C8: the hierarchy block is well-formed for the 24-joint skeleton: the
first declared joint is the sole ROOT (joint 0, exactly one ROOT header
and 23 JOINT headers, every joint declared); each ROOT header is followed
by the 6-channel line and each JOINT header by the 3-channel line; every
non-root joint's block is a contiguous segment strictly inside its
parent's brace block; each joint's children are listed in ascending
joint-index order; every childless joint's block body is exactly an End
Site block, whose OFFSET line renders the zero offset. -/
theorem hierarchy_wellformed :
    (hierarchy_lines.filterMap headerJointIdx).head? = some 0 ∧
    hierarchy_lines.countP (fun l => is_root_header l) = 1 ∧
    hierarchy_lines.countP (fun l => is_joint_header l) = 23 ∧
    (∀ j : Fin 24, (j:ℕ) ∈ hierarchy_joint_order) ∧
    channels_follow_headers hierarchy_lines = true ∧
    (∀ j : Fin 24, (j:ℕ) ≠ 0 →
      joint_block (j:ℕ) <:+:
        (((joint_block (PARENT_INDICES.getD (j:ℕ) 0).toNat).drop 4).dropLast)) ∧
    (∀ j : Fin 24, List.Pairwise (· < ·) (children (j:ℕ))) ∧
    (∀ j : Fin 24, children (j:ℕ) = [] →
      (joint_block (j:ℕ)).drop 4
        = [Line.endSite (joint_depth 24 (j:ℕ)), Line.endOpen (joint_depth 24 (j:ℕ)),
           Line.endOffset (joint_depth 24 (j:ℕ)), Line.endClose (joint_depth 24 (j:ℕ)),
           Line.closeBrace (joint_depth 24 (j:ℕ))]) ∧
    (∀ d : ℕ, render (Line.endOffset d) = pad (2*d) ++ "    OFFSET 0.0 0.0 0.0") := by
  refine ⟨by decide, by decide, by decide, by decide, by decide, by decide, by decide,
    by decide, fun d => rfl⟩

/-- Witness for C8: the nesting and leaf conjuncts instantiated at
L_Shoulder (joint 16, inside L_Collar) and L_Foot (joint 10, a leaf). -/
theorem hierarchy_wellformed_witness :
    (joint_block ((16 : Fin 24) : ℕ) <:+:
      (((joint_block (PARENT_INDICES.getD ((16 : Fin 24) : ℕ) 0).toNat).drop 4).dropLast)) ∧
    (joint_block ((10 : Fin 24) : ℕ)).drop 4
        = [Line.endSite (joint_depth 24 ((10 : Fin 24) : ℕ)),
           Line.endOpen (joint_depth 24 ((10 : Fin 24) : ℕ)),
           Line.endOffset (joint_depth 24 ((10 : Fin 24) : ℕ)),
           Line.endClose (joint_depth 24 ((10 : Fin 24) : ℕ)),
           Line.closeBrace (joint_depth 24 ((10 : Fin 24) : ℕ))] :=
  ⟨hierarchy_wellformed.2.2.2.2.2.1 16 (by decide),
   hierarchy_wellformed.2.2.2.2.2.2.2.1 10 (by decide)⟩

/-- C9: determinism of the pipeline: the baseline generator applied twice
to equal frame counts, tempos and onset vectors yields equal motion data,
and the exporter applied twice to equal rotations and translations (at the
same fps and shape) yields equal warnings and file lines; both are pure
functions of their inputs, with no time, randomness or locale input. -/
theorem pipeline_determinism :
    (∀ (n : ℕ) (tempo : ℝ) (onset : List ℝ) (n₂ : ℕ) (tempo₂ : ℝ) (onset₂ : List ℝ),
        n = n₂ → tempo = tempo₂ → onset = onset₂ →
        generate Real.sin Real.pi n tempo onset
          = generate Real.sin Real.pi n₂ tempo₂ onset₂) ∧
    (∀ (fps nf nj : ℕ) (rot rot₂ : ℕ → ℕ → ℕ → ℚ) (tr tr₂ : Option (ℕ → ℕ → ℚ)),
        rot = rot₂ → tr = tr₂ →
        export_bvh fps nf nj rot tr = export_bvh fps nf nj rot₂ tr₂) := by
  constructor
  · intro n tempo onset n₂ tempo₂ onset₂ h1 h2 h3
    subst h1; subst h2; subst h3; rfl
  · intro fps nf nj rot rot₂ tr tr₂ h1 h2
    subst h1; subst h2; rfl

/-- Witness for C9 at concrete inputs. -/
theorem pipeline_determinism_witness :
    generate Real.sin Real.pi 2 120 [0]
      = generate Real.sin Real.pi 2 120 [0] ∧
    export_bvh 60 1 24 (fun _ _ _ => 0) (some (fun _ _ => 0))
      = export_bvh 60 1 24 (fun _ _ _ => 0) (some (fun _ _ => 0)) :=
  ⟨pipeline_determinism.1 2 120 [0] 2 120 [0] rfl rfl rfl,
   pipeline_determinism.2 60 1 24 (fun _ _ _ => 0) (fun _ _ _ => 0)
     (some (fun _ _ => 0)) (some (fun _ _ => 0)) rfl rfl⟩

/-- C10: a frame index at or beyond the onset vector's length gets beat
intensity 0 — the generator's explicit bounds guard, modelled by the
defaulted lookup — so no emphasis scaling is applied there and generation
is total. -/
theorem short_onset_safe (tempo : ℝ) (onset : List ℝ) (i j a : ℕ)
    (h : onset.length ≤ i) :
    beat_intensity onset i = 0 ∧
    rotation Real.sin Real.pi tempo onset i j a
      = base_rotation Real.sin Real.pi tempo i j a := by
  have hb : beat_intensity onset i = 0 := List.getD_eq_default _ _ h
  refine ⟨hb, ?_⟩
  simp only [rotation, hb]
  rw [if_neg (by norm_num)]

/-- Witness for C10 at the empty onset vector. -/
theorem short_onset_safe_witness :
    beat_intensity ([] : List ℝ) 0 = 0 ∧
    rotation Real.sin Real.pi 120 ([] : List ℝ) 0 16 0
      = base_rotation Real.sin Real.pi 120 0 16 0 :=
  short_onset_safe 120 [] 0 16 0 (by simp)

end DAIM
